import Mathlib

/-!
Shallow embedding of the simulation state machine and gamified scoring
subsystem of the cse471 backend (simulation controller, game controller,
AI service and game-stats model), with theorems checking the
natural-language specification against it.
-/

namespace SimLab

/-- Enumeration `subject` of the simulation schema. -/
inductive Subject
  | chemistry
  | physics
  | biology
  | general
  deriving DecidableEq, Repr

/-- Enumeration `state.status` of the simulation schema. -/
inductive Status
  | not_started
  | in_progress
  | paused
  | completed
  deriving DecidableEq, Repr

/-- Shape of `scoringCriteria` of a generated `gameConfig` (gameController / aiService). -/
structure ScoringCriteria where
  correctAction : Int
  observation : Int
  completion : Int
  deriving DecidableEq, Repr

/-- The literal default used by `calculateScoreGain` / `calculateMixingScore`
when `gameConfig?.scoringCriteria` is absent, and by `generateGameConfig`. -/
def defaultScoringCriteria : ScoringCriteria :=
  { correctAction := 10, observation := 5, completion := 50 }

/-- A generated `gameConfig` (aiService.generateGameConfig output shape). -/
structure GameConfig where
  objectives : List String
  scoringCriteria : ScoringCriteria
  maxScore : Int
  timeLimit : Int
  deriving DecidableEq, Repr

/-- Defaulting rule `gameConfig?.scoringCriteria || ...` with the fixed 10/5/50 weights. -/
def resolveCriteria (gameConfig : Option GameConfig) : ScoringCriteria :=
  match gameConfig with
  | some g => g.scoringCriteria
  | none => defaultScoringCriteria

/-- The AI interpretation result fields consumed by `calculateScoreGain`
(gameController). `safety` is a free-form string in the source. -/
structure ActionResult where
  isCorrect : Bool
  observation : Bool
  safety : String
  deriving DecidableEq, Repr

/-- gameController.calculateScoreGain: base `correctAction` weight, again if
`isCorrect`, plus `observation` weight if an observation was produced,
`max 0` after a 15-point dangerous or 5-point caution penalty, capped at 25. -/
def calculateScoreGain (aiResult : ActionResult) (gameConfig : Option GameConfig) : Int :=
  let criteria := resolveCriteria gameConfig
  let score : Int := 0
  let score := score + criteria.correctAction
  let score := if aiResult.isCorrect then score + criteria.correctAction else score
  let score := if aiResult.observation then score + criteria.observation else score
  let score :=
    if aiResult.safety = "dangerous" then max 0 (score - 15)
    else if aiResult.safety = "caution" then max 0 (score - 5)
    else score
  min score 25

/-- The AI reaction fields consumed by `calculateMixingScore` (gameController). -/
structure Reaction where
  safety : String
  educational : Bool
  deriving DecidableEq, Repr

/-- gameController.calculateMixingScore: base `correctAction` weight, +10 for a
safe reaction / +5 for caution, plus `observation` weight if educational,
capped at 30. -/
def calculateMixingScore (reaction : Reaction) (gameConfig : Option GameConfig) : Int :=
  let criteria := resolveCriteria gameConfig
  let score : Int := criteria.correctAction
  let score :=
    if reaction.safety = "safe" then score + 10
    else if reaction.safety = "caution" then score + 5
    else score
  let score := if reaction.educational then score + criteria.observation else score
  min score 30

/-- part_008 calculatePerformance: threshold ladder on `score / maxScore * 100`. -/
def calculatePerformance (score maxScore : Int) : String :=
  let percentage : ℚ := (score : ℚ) / (maxScore : ℚ) * 100
  if 90 ≤ percentage then "excellent"
  else if 75 ≤ percentage then "good"
  else if 60 ≤ percentage then "fair"
  else "needs_improvement"

/-- JavaScript `x || d` on an optional number: `undefined` and `0` are falsy. -/
def jsOrI (x : Option Int) (d : Int) : Int :=
  match x with
  | none => d
  | some v => if v = 0 then d else v

/-- The fields of the free-form `state.results` bag read by the completion
path; every field is absent until written (absent compares as false in JS). -/
structure ResultsBag where
  gameScore : Option Int
  actionsCompleted : Option Int
  observationsMade : Option Int
  hintsUsed : Option Int
  deriving DecidableEq, Repr

/-- The `state.results` bag starts empty (`results: {}` at creation). -/
def emptyResults : ResultsBag := ⟨none, none, none, none⟩

/-- Caller-supplied `finalResults` body of the complete endpoint; each field
is optional. -/
structure FinalResults where
  gameScore : Option Int
  actionsCompleted : Option Int
  observationsMade : Option Int
  hintsUsed : Option Int
  deriving DecidableEq, Repr

/-- The parts of `state.gameState` the modelled operations read or write:
cumulative score and the lengths of the observation, hint and mixed-solution
logs. -/
structure GameState where
  score : Int
  observations : Nat
  hints : Nat
  mixedSolutions : Nat
  deriving DecidableEq, Repr

/-- Simulation `state` sub-document (fields used by the modelled operations).
Timestamps are integer epoch milliseconds. -/
structure SimState where
  status : Status
  currentStep : Int
  progress : Int
  results : ResultsBag
  gameState : Option GameState
  startedAt : Option Int
  lastActiveAt : Option Int
  completedAt : Option Int
  deriving DecidableEq, Repr

/-- A simulation document (fields used by the modelled operations). -/
structure Simulation where
  subject : Subject
  level : Int
  gameConfig : Option GameConfig
  state : SimState
  deriving DecidableEq, Repr

/-- How a rejected request is classified by the controller. -/
inductive Err
  | invalidTransition
  | rateLimited
  deriving DecidableEq, Repr

/-- part_008 isValidStateTransition: the lifecycle transition table. -/
def isValidStateTransition (currentStatus newStatus : Status) : Bool :=
  match currentStatus with
  | .not_started => newStatus = .in_progress
  | .in_progress => newStatus = .paused || newStatus = .completed
  | .paused => newStatus = .in_progress || newStatus = .completed
  | .completed => false

/-- JavaScript `x >= n` on an optional number: absent compares as false. -/
def jsGe (x : Option Int) (n : Int) : Bool :=
  match x with
  | some v => n ≤ v
  | none => false

/-- JavaScript `x > n` on an optional number: absent compares as false. -/
def jsGt (x : Option Int) (n : Int) : Bool :=
  match x with
  | some v => n < v
  | none => false

/-- part_008 generateGameAchievements, as the list of awarded badge ids.
An absent numeric field never satisfies a `>=` / `>` comparison in JS. -/
def generateGameAchievements (results : ResultsBag) (performance : String) : List String :=
  (if performance = "excellent" then ["perfect_scientist"]
   else if performance = "good" then ["skilled_researcher"]
   else [])
  ++ (if jsGe results.observationsMade 5 then ["keen_observer"] else [])
  ++ (if jsGe results.actionsCompleted 10 then ["active_experimenter"] else [])
  ++ (if jsGt results.gameScore 0 then ["lab_apprentice"] else [])

/-- The enhanced-results merge inside completeSimulation, executed only when a
`finalResults` body is supplied:
`{ ...results, ...finalResults, gameScore: finalResults.gameScore ||
gameState?.score || 0, actionsCompleted: finalResults.actionsCompleted || 0,
observationsMade: finalResults.observationsMade || gameState?.observations?.length || 0,
hintsUsed: finalResults.hintsUsed || gameState?.hints?.length || 0 }`. -/
def mergeFinalResults (finalResults : FinalResults) (gameState : Option GameState) :
    ResultsBag :=
  { gameScore :=
      some (jsOrI finalResults.gameScore (jsOrI (gameState.map GameState.score) 0))
    actionsCompleted := some (jsOrI finalResults.actionsCompleted 0)
    observationsMade :=
      some (jsOrI finalResults.observationsMade
        (jsOrI (gameState.map fun g => (g.observations : Int)) 0))
    hintsUsed :=
      some (jsOrI finalResults.hintsUsed
        (jsOrI (gameState.map fun g => (g.hints : Int)) 0)) }

/-- Response payload of a successful complete call (`gameResults`). -/
structure CompleteOutcome where
  finalScore : Int
  maxPossibleScore : Int
  performance : String
  achievements : List String
  deriving DecidableEq, Repr

/-- part_008 completeSimulation: guard on in_progress/paused, stamp
status/progress/completedAt/lastActiveAt, merge `finalResults` when supplied,
then compute performance and achievements from the saved results bag and
`gameConfig?.maxScore || 100`. -/
def completeSimulation (sim : Simulation) (finalResults : Option FinalResults)
    (now : Int) : Except Err (Simulation × CompleteOutcome) :=
  if sim.state.status = .in_progress ∨ sim.state.status = .paused then
    let results :=
      match finalResults with
      | none => sim.state.results
      | some fr => mergeFinalResults fr sim.state.gameState
    let state' : SimState :=
      { sim.state with
          status := .completed
          progress := 100
          completedAt := some now
          lastActiveAt := some now
          results := results }
    let gameScore := jsOrI state'.results.gameScore 0
    let maxScore := jsOrI (sim.gameConfig.map GameConfig.maxScore) 100
    let performance := calculatePerformance gameScore maxScore
    let achievements := generateGameAchievements state'.results performance
    .ok ({ sim with state := state' },
      { finalScore := gameScore
        maxPossibleScore := maxScore
        performance := performance
        achievements := achievements })
  else
    .error .invalidTransition

/-- part_008 startSimulation: only from not_started; stamps startedAt and
lastActiveAt. -/
def startSimulation (sim : Simulation) (now : Int) : Except Err Simulation :=
  if sim.state.status = .not_started then
    .ok { sim with
            state := { sim.state with
                         status := .in_progress
                         startedAt := some now
                         lastActiveAt := some now } }
  else
    .error .invalidTransition

/-- part_008 pauseSimulation: only from in_progress; stamps lastActiveAt. -/
def pauseSimulation (sim : Simulation) (now : Int) : Except Err Simulation :=
  if sim.state.status = .in_progress then
    .ok { sim with
            state := { sim.state with status := .paused, lastActiveAt := some now } }
  else
    .error .invalidTransition

/-- part_008 resumeSimulation: only from paused; stamps lastActiveAt. -/
def resumeSimulation (sim : Simulation) (now : Int) : Except Err Simulation :=
  if sim.state.status = .paused then
    .ok { sim with
            state := { sim.state with status := .in_progress, lastActiveAt := some now } }
  else
    .error .invalidTransition

/-- A generic state patch sent to the update-state endpoint (modelled fields). -/
structure StatePatch where
  status : Option Status
  currentStep : Option Int
  progress : Option Int
  deriving DecidableEq, Repr

/-- The update-state rate limit: rejected when `lastActiveAt` is set and the
request arrives less than 1000 ms after it. -/
def updateRateLimited (sim : Simulation) (now : Int) : Bool :=
  match sim.state.lastActiveAt with
  | some t => now - t < 1000
  | none => false

/-- part_008 updateSimulationState: rate limit first; a status change must
pass isValidStateTransition; a status equal to the current one is dropped
from the patch; merge the remaining fields and stamp lastActiveAt. -/
def updateSimulationState (sim : Simulation) (patch : StatePatch) (now : Int) :
    Except Err Simulation :=
  if updateRateLimited sim now then
    .error .rateLimited
  else if h : patch.status.isSome then
    let newStatus := patch.status.get h
    if newStatus ≠ sim.state.status ∧ ¬isValidStateTransition sim.state.status newStatus then
      .error .invalidTransition
    else
      .ok { sim with
              state := { sim.state with
                           status := newStatus
                           currentStep := patch.currentStep.getD sim.state.currentStep
                           progress := patch.progress.getD sim.state.progress
                           lastActiveAt := some now } }
  else
    .ok { sim with
            state := { sim.state with
                         currentStep := patch.currentStep.getD sim.state.currentStep
                         progress := patch.progress.getD sim.state.progress
                         lastActiveAt := some now } }

/-- One lifecycle request, as dispatched to the five handlers. -/
inductive LifecycleOp
  | start
  | pause
  | resume
  | complete (finalResults : Option FinalResults)
  | patch (p : StatePatch)
  deriving DecidableEq, Repr

/-- Dispatch a lifecycle request; on rejection the stored record is returned
unchanged together with the reported failure (the handlers early-return
before mutating anything). -/
def runLifecycleOp (op : LifecycleOp) (sim : Simulation) (now : Int) :
    Simulation × Option Err :=
  let r : Except Err Simulation :=
    match op with
    | .start => startSimulation sim now
    | .pause => pauseSimulation sim now
    | .resume => resumeSimulation sim now
    | .complete fr => (completeSimulation sim fr now).map Prod.fst
    | .patch p => updateSimulationState sim p now
  match r with
  | .ok sim' => (sim', none)
  | .error e => (sim, some e)

/-- A map over the three tracked subjects (`skillProgression` / `bestScores`
of the StudentGameStats schema); `general` is not a key of either map. -/
structure SubjectScores where
  chemistry : Int
  physics : Int
  biology : Int
  deriving DecidableEq, Repr

/-- Read the tracked-subject entry; `general` is `undefined`. -/
def SubjectScores.get (m : SubjectScores) : Subject → Option Int
  | .chemistry => some m.chemistry
  | .physics => some m.physics
  | .biology => some m.biology
  | .general => none

/-- Write a tracked-subject entry (no-op on the untracked `general`). -/
def SubjectScores.set (m : SubjectScores) (s : Subject) (v : Int) : SubjectScores :=
  match s with
  | .chemistry => { m with chemistry := v }
  | .physics => { m with physics := v }
  | .biology => { m with biology := v }
  | .general => m

/-- StudentGameStats document (fields used by `updateStats`). -/
structure GameStats where
  totalGamesPlayed : Int
  totalScore : Int
  averageScore : Int
  experimentsCompleted : Int
  favoriteSubject : Subject
  skillProgression : SubjectScores
  bestScores : SubjectScores
  streakCurrent : Int
  streakLongest : Int
  deriving DecidableEq, Repr

/-- The schema defaults of a freshly created StudentGameStats document. -/
def newGameStats : GameStats :=
  { totalGamesPlayed := 0
    totalScore := 0
    averageScore := 0
    experimentsCompleted := 0
    favoriteSubject := .general
    skillProgression := ⟨0, 0, 0⟩
    bestScores := ⟨0, 0, 0⟩
    streakCurrent := 0
    streakLongest := 0 }

/-- JavaScript `Math.round(a / b)` on integers (round half toward +∞). -/
def jsRoundDiv (a b : Int) : Int :=
  Int.floor ((a : ℚ) / (b : ℚ) + 1 / 2)

/-- JS reduce `['chemistry','physics','biology'].reduce((a, b) => prog[a] > prog[b] ? a : b)`:
the later subject wins a tie. -/
def favoriteReduce (prog : SubjectScores) : Subject :=
  let acc := if prog.physics < prog.chemistry then Subject.chemistry else Subject.physics
  let accV := if prog.physics < prog.chemistry then prog.chemistry else prog.physics
  if prog.biology < accV then acc else Subject.biology

/-- gameModels studentGameStatsSchema.methods.updateStats. -/
def updateStats (stats : GameStats) (subject : Subject) (finalScore : Int)
    (completed : Bool) : GameStats :=
  let totalGamesPlayed := stats.totalGamesPlayed + 1
  let totalScore := stats.totalScore + finalScore
  let averageScore := jsRoundDiv totalScore totalGamesPlayed
  let experimentsCompleted :=
    if completed then stats.experimentsCompleted + 1 else stats.experimentsCompleted
  let (skillProgression, bestScores, favoriteSubject) :=
    match stats.skillProgression.get subject with
    | some currentProgression =>
        let progressionGain := min 5 (Int.fdiv finalScore 20)
        let skill' := stats.skillProgression.set subject
          (min 100 (currentProgression + progressionGain))
        let best' :=
          if (stats.bestScores.get subject).getD 0 < finalScore then
            stats.bestScores.set subject finalScore
          else stats.bestScores
        (skill', best', favoriteReduce skill')
    | none => (stats.skillProgression, stats.bestScores, stats.favoriteSubject)
  let (streakCurrent, streakLongest) :=
    if 70 ≤ finalScore then
      let cur := stats.streakCurrent + 1
      (cur, if stats.streakLongest < cur then cur else stats.streakLongest)
    else
      (0, stats.streakLongest)
  { totalGamesPlayed := totalGamesPlayed
    totalScore := totalScore
    averageScore := averageScore
    experimentsCompleted := experimentsCompleted
    favoriteSubject := favoriteSubject
    skillProgression := skillProgression
    bestScores := bestScores
    streakCurrent := streakCurrent
    streakLongest := streakLongest }

/-- A structured equipment entry of `virtualLab.equipment`. -/
structure EquipmentItem where
  id : String
  name : String
  description : String
  icon : String
  category : String
  deriving DecidableEq, Repr

/-- A structured chemical entry of `virtualLab.chemicals`. -/
structure Chemical where
  id : String
  name : String
  concentration : String
  hazard : String
  color : String
  icon : String
  deriving DecidableEq, Repr

/-- An equipment list entry as the AI may return it: a plain string or an
already structured object. -/
inductive RawEquip
  | str (s : String)
  | obj (e : EquipmentItem)
  deriving DecidableEq, Repr

/-- A chemicals list entry as the AI may return it. -/
inductive RawChem
  | str (s : String)
  | obj (c : Chemical)
  deriving DecidableEq, Repr

/-- JavaScript `String.prototype.includes`. -/
def jsIncludes (s pat : String) : Bool :=
  1 < (s.splitOn pat).length

/-- JavaScript `x || d` on an optional string: absent and empty are falsy. -/
def jsOrS (x : Option String) (d : String) : String :=
  match x with
  | some s => if s = "" then d else s
  | none => d

/-- The subject value as the string it is in the source. -/
def subjectToString : Subject → String
  | .chemistry => "chemistry"
  | .physics => "physics"
  | .biology => "biology"
  | .general => "general"

/-- aiService.getEquipmentIcon: first keyword match over the icon table,
else the microscope icon. -/
def getEquipmentIcon (name : String) : String :=
  let icons : List (String × String) :=
    [("beaker", "🥤"), ("burette", "🔬"), ("microscope", "🔬"), ("multimeter", "⚡"),
     ("breadboard", "🔌"), ("pipette", "💉"), ("goggles", "🥽"), ("thermometer", "🌡️"),
     ("scale", "⚖️"), ("flask", "🧪"), ("slide", "📏")]
  match icons.find? (fun p => jsIncludes name.toLower p.1) with
  | some p => p.2
  | none => "🔬"

/-- aiService.categorizeEquipment: first category whose keyword list matches,
else "tools". -/
def categorizeEquipment (name : String) : String :=
  let categories : List (String × List String) :=
    [("glassware", ["beaker", "flask", "tube", "cylinder"]),
     ("instruments", ["microscope", "multimeter", "thermometer", "scale", "burette"]),
     ("tools", ["goggles", "tongs", "spatula", "brush", "pipette"]),
     ("chemicals", ["acid", "base", "salt", "indicator"])]
  match categories.find? (fun p => p.2.any (fun item => jsIncludes name.toLower item)) with
  | some p => p.1
  | none => "tools"

/-- aiService.getConcentration. -/
def getConcentration (name : String) : String :=
  if jsIncludes name.toLower "water" then "Pure"
  else if jsIncludes name.toLower "acid" then "0.1M"
  else if jsIncludes name.toLower "base" then "0.1M"
  else "1%"

/-- aiService.getHazardLevel. -/
def getHazardLevel (name : String) : String :=
  let dangerous := ["acid", "concentrated", "strong"]
  let caution := ["base", "indicator", "salt"]
  if dangerous.any (fun word => jsIncludes name.toLower word) then "dangerous"
  else if caution.any (fun word => jsIncludes name.toLower word) then "caution"
  else "safe"

/-- aiService.getChemicalColor. -/
def getChemicalColor (name : String) : String :=
  let colors : List (String × String) :=
    [("water", "colorless"), ("acid", "colorless"), ("base", "colorless"),
     ("indicator", "pink"), ("salt", "white"), ("iodine", "brown"), ("copper", "blue")]
  match colors.find? (fun p => jsIncludes name.toLower p.1) with
  | some p => p.2
  | none => "colorless"

/-- aiService.getDefaultEquipment (unknown subject falls back to chemistry). -/
def getDefaultEquipment (subject : Subject) : List EquipmentItem :=
  match subject with
  | .physics =>
    [⟨"eq_1", "Multimeter", "Electrical measurement device", "⚡", "instruments"⟩,
     ⟨"eq_2", "Breadboard", "Circuit construction platform", "🔌", "tools"⟩,
     ⟨"eq_3", "Safety Goggles", "Eye protection equipment", "🥽", "tools"⟩]
  | .biology =>
    [⟨"eq_1", "Microscope", "Device for magnifying small objects", "🔬", "instruments"⟩,
     ⟨"eq_2", "Prepared Slides", "Sample specimens for observation", "📏", "tools"⟩,
     ⟨"eq_3", "Safety Goggles", "Eye protection equipment", "🥽", "tools"⟩]
  | _ =>
    [⟨"eq_1", "Beaker", "Glass container for mixing solutions", "🥤", "glassware"⟩,
     ⟨"eq_2", "Burette", "Precise measuring device for liquids", "🔬", "instruments"⟩,
     ⟨"eq_3", "Safety Goggles", "Eye protection equipment", "🥽", "tools"⟩]

/-- aiService.getDefaultChemicals: empty outside chemistry. -/
def getDefaultChemicals (subject : Subject) : List Chemical :=
  if subject ≠ .chemistry then []
  else
    [⟨"chem_1", "Distilled Water", "Pure", "safe", "colorless", "💧"⟩,
     ⟨"chem_2", "Sodium Chloride", "0.1M", "safe", "white", "🧂"⟩,
     ⟨"chem_3", "Phenolphthalein", "1%", "caution", "colorless", "🧪"⟩]

/-- aiService.enhanceEquipmentForGaming: default on absent/empty list, else
promote plain strings to structured objects. -/
def enhanceEquipmentForGaming (equipmentList : Option (List RawEquip))
    (subject : Subject) : List EquipmentItem :=
  match equipmentList with
  | none => getDefaultEquipment subject
  | some l =>
    if l.length = 0 then getDefaultEquipment subject
    else l.enum.map fun p =>
      match p.2 with
      | .str s =>
        { id := "eq_" ++ toString (p.1 + 1)
          name := s
          description := s ++ " for laboratory experiments"
          icon := getEquipmentIcon s
          category := categorizeEquipment s }
      | .obj e => e

/-- aiService.enhanceChemicalsForGaming: chemistry defaults on absent/empty
list (empty outside chemistry), else promote plain strings. -/
def enhanceChemicalsForGaming (chemicalsList : Option (List RawChem))
    (subject : Subject) : List Chemical :=
  match chemicalsList with
  | none => if subject = .chemistry then getDefaultChemicals subject else []
  | some l =>
    if l.length = 0 then
      if subject = .chemistry then getDefaultChemicals subject else []
    else l.enum.map fun p =>
      match p.2 with
      | .str s =>
        { id := "chem_" ++ toString (p.1 + 1)
          name := s
          concentration := getConcentration s
          hazard := getHazardLevel s
          color := getChemicalColor s
          icon := "🧪" }
      | .obj c => c

/-- aiService.getDifficultyByLevel. -/
def getDifficultyByLevel (level : Int) : String :=
  if level ≤ 2 then "beginner"
  else if level ≤ 4 then "intermediate"
  else "advanced"

/-- aiService.getGameObjectives (unknown subject falls back to chemistry). -/
def getGameObjectives (subject : Subject) : List String :=
  match subject with
  | .physics =>
    ["Understand fundamental physical principles",
     "Learn to use measurement instruments properly",
     "Explore cause and effect relationships",
     "Practice scientific problem-solving"]
  | .biology =>
    ["Observe living organisms and biological structures",
     "Learn proper microscope techniques",
     "Understand biological processes",
     "Practice careful scientific observation"]
  | _ =>
    ["Learn about chemical reactions and molecular interactions",
     "Practice safe laboratory procedures",
     "Understand the importance of accurate measurements",
     "Observe and record experimental results"]

/-- aiService.generateGameConfig: fixed weights, `maxScore = 100 + level*20`,
time limit 45 for chemistry, 30 for physics, 40 otherwise. -/
def generateGameConfig (subject : Subject) (level : Int) : GameConfig :=
  { objectives := getGameObjectives subject
    scoringCriteria := { correctAction := 10, observation := 5, completion := 50 }
    maxScore := 100 + level * 20
    timeLimit := if subject = .chemistry then 45 else if subject = .physics then 30 else 40 }

/-- Generator-output `virtualLab` (all entries structured after enhancement). -/
structure VirtualLab where
  equipment : List EquipmentItem
  chemicals : List Chemical
  procedure : List String
  safetyNotes : List String
  deriving DecidableEq, Repr

/-- Generator output: the simulation data handed to the create endpoint. -/
structure SimData where
  title : String
  description : String
  prompt : String
  subject : Subject
  level : Int
  experimentType : String
  virtualLab : VirtualLab
  gameConfig : GameConfig
  objectives : List String
  expectedOutcome : String
  estimatedDuration : Int
  difficulty : String
  deriving DecidableEq, Repr

/-- Placeholder for the fields a mockData template does not carry (they are
overwritten by the spread in generateMockSimulation). -/
def blankGameConfig : GameConfig :=
  { objectives := [], scoringCriteria := defaultScoringCriteria, maxScore := 0, timeLimit := 0 }

/-- aiService.generateMockSimulation, `mockData.chemistry` template. The
prompt/subject/level/gameConfig fields are placeholders overwritten by the
spread. -/
def mockChemistry : SimData :=
  { title := "Acid-Base Titration Experiment"
    description := "Learn about acid-base reactions by performing a virtual titration to determine the concentration of an unknown acid solution."
    prompt := ""
    subject := .chemistry
    level := 0
    experimentType := "titration"
    virtualLab :=
      { equipment :=
          [⟨"eq_1", "burette", "Precise measuring device", "🔬", "instruments"⟩,
           ⟨"eq_2", "conical flask", "Glass container for reactions", "🥤", "glassware"⟩,
           ⟨"eq_3", "pipette", "Precision liquid transfer", "💉", "tools"⟩]
        chemicals :=
          [⟨"chem_1", "HCl solution", "Unknown", "dangerous", "colorless", "🧪"⟩,
           ⟨"chem_2", "NaOH solution", "0.1M", "caution", "colorless", "🧪"⟩,
           ⟨"chem_3", "phenolphthalein indicator", "1%", "safe", "colorless", "🧪"⟩]
        procedure :=
          ["Set up the burette and fill it with 0.1M NaOH solution",
           "Pipette 25.0ml of HCl solution into a conical flask",
           "Add 2-3 drops of phenolphthalein indicator to the flask",
           "Place the flask under the burette on a white tile",
           "Slowly add NaOH solution while swirling the flask",
           "Stop when the solution turns light pink",
           "Record the volume of NaOH used",
           "Calculate the concentration of HCl"]
        safetyNotes :=
          ["Wear safety goggles and lab coat",
           "Handle chemicals carefully",
           "Report any spills immediately",
           "Wash hands after the experiment"] }
    gameConfig := blankGameConfig
    objectives :=
      ["Understand acid-base neutralization reactions",
       "Learn to use laboratory equipment accurately",
       "Calculate molarity from titration data",
       "Observe color changes with indicators"]
    expectedOutcome := "The colorless solution will turn light pink at the endpoint, indicating neutralization is complete."
    estimatedDuration := 45
    difficulty := "intermediate" }

/-- aiService.generateMockSimulation, `mockData.physics` template. -/
def mockPhysics : SimData :=
  { title := "Simple Circuit Construction"
    description := "Build and analyze simple electrical circuits to understand current, voltage, and resistance relationships."
    prompt := ""
    subject := .physics
    level := 0
    experimentType := "circuit_building"
    virtualLab :=
      { equipment :=
          [⟨"eq_1", "breadboard", "Circuit construction platform", "🔌", "tools"⟩,
           ⟨"eq_2", "LED", "Light emitting diode", "💡", "tools"⟩,
           ⟨"eq_3", "multimeter", "Electrical measurement device", "⚡", "instruments"⟩]
        chemicals := []
        procedure :=
          ["Connect the battery pack to the breadboard",
           "Insert the LED into the breadboard",
           "Add a resistor in series with the LED",
           "Connect the circuit with jumper wires",
           "Test the circuit - LED should light up",
           "Use multimeter to measure voltage across components",
           "Try different resistor values and observe changes"]
        safetyNotes :=
          ["Use appropriate voltage levels",
           "Check connections before powering on",
           "Handle components carefully"] }
    gameConfig := blankGameConfig
    objectives :=
      ["Understand basic electrical circuits",
       "Learn Ohm\x27s law relationships",
       "Practice using measuring instruments",
       "Observe effects of resistance on current"]
    expectedOutcome := "LED will illuminate and brightness will vary with different resistor values."
    estimatedDuration := 30
    difficulty := "beginner" }

/-- aiService.generateMockSimulation, `mockData.biology` template. -/
def mockBiology : SimData :=
  { title := "Microscopic Cell Observation"
    description := "Explore the microscopic world by observing different types of cells and identifying their structures."
    prompt := ""
    subject := .biology
    level := 0
    experimentType := "microscopy"
    virtualLab :=
      { equipment :=
          [⟨"eq_1", "light microscope", "Device for magnifying specimens", "🔬", "instruments"⟩,
           ⟨"eq_2", "prepared slides", "Sample specimens for observation", "📏", "tools"⟩,
           ⟨"eq_3", "lens paper", "For cleaning microscope lenses", "🧻", "tools"⟩]
        chemicals :=
          [⟨"chem_1", "methylene blue stain", "1%", "safe", "blue", "🧪"⟩]
        procedure :=
          ["Set up the microscope and adjust lighting",
           "Start with low magnification (4x objective)",
           "Place the prepared slide on the stage",
           "Focus using coarse adjustment knob",
           "Switch to higher magnification (10x, then 40x)",
           "Use fine adjustment for clear focus",
           "Observe and identify cell structures",
           "Draw what you observe"]
        safetyNotes :=
          ["Handle microscope and slides carefully",
           "Clean lenses with lens paper only",
           "Store microscope properly"] }
    gameConfig := blankGameConfig
    objectives :=
      ["Learn proper microscope usage",
       "Identify basic cell structures",
       "Understand magnification principles",
       "Practice scientific observation skills"]
    expectedOutcome := "Clear observation of cell structures including nucleus, cytoplasm, and cell membrane."
    estimatedDuration := 35
    difficulty := "intermediate" }

/-- aiService.generateMockSimulation: subject template (chemistry for an
unknown subject), re-tagged with the requested prompt/subject/level and a
freshly derived difficulty and gameConfig. -/
def generateMockSimulation (prompt : String) (subject : Subject) (level : Int) : SimData :=
  let baseData :=
    match subject with
    | .chemistry => mockChemistry
    | .physics => mockPhysics
    | .biology => mockBiology
    | .general => mockChemistry
  { baseData with
      prompt := prompt
      subject := subject
      level := level
      difficulty := getDifficultyByLevel level
      gameConfig := generateGameConfig subject level }

/-- The JSON object a successful AI call parses to (every section optional). -/
structure AIData where
  title : Option String
  description : Option String
  experimentType : Option String
  equipment : Option (List RawEquip)
  chemicals : Option (List RawChem)
  procedure : Option (List String)
  safetyNotes : Option (List String)
  objectives : Option (List String)
  expectedOutcome : Option String
  estimatedDuration : Option Int
  difficulty : Option String
  deriving DecidableEq, Repr

/-- aiService.parseAIResponse, after a successful JSON.parse: normalize every
section, substituting deterministic defaults for missing ones. -/
def parseAIResponse (aiData : AIData) (originalPrompt : String) (subject : Subject)
    (level : Int) : SimData :=
  { title := jsOrS aiData.title (subjectToString subject ++ " Experiment")
    description := jsOrS aiData.description "An engaging virtual laboratory experiment."
    prompt := originalPrompt
    subject := subject
    level := level
    experimentType := jsOrS aiData.experimentType "general_experiment"
    virtualLab :=
      { equipment := enhanceEquipmentForGaming aiData.equipment subject
        chemicals := enhanceChemicalsForGaming aiData.chemicals subject
        procedure :=
          match aiData.procedure with
          | some l =>
            if 0 < l.length then l
            else ["Step 1: Set up equipment", "Step 2: Follow experimental procedure",
                  "Step 3: Record observations"]
          | none =>
            ["Step 1: Set up equipment", "Step 2: Follow experimental procedure",
             "Step 3: Record observations"]
        safetyNotes :=
          match aiData.safetyNotes with
          | some l =>
            if 0 < l.length then l
            else ["Wear appropriate safety equipment", "Follow all laboratory protocols",
                  "Report any issues immediately"]
          | none =>
            ["Wear appropriate safety equipment", "Follow all laboratory protocols",
             "Report any issues immediately"] }
    gameConfig := generateGameConfig subject level
    objectives := aiData.objectives.getD ["Learn basic scientific principles"]
    expectedOutcome := jsOrS aiData.expectedOutcome "Observe scientific phenomena"
    estimatedDuration := jsOrI aiData.estimatedDuration 30
    difficulty := jsOrS aiData.difficulty (getDifficultyByLevel level) }

/-- Outcome of one interaction with the external generative capability. -/
inductive CapOutcome
  | noApiKey
  | requestFailed
  | parseFailed
  | parsed (d : AIData)
  deriving DecidableEq, Repr

/-- aiService.generateSimulation: parse path on success; every failure
(missing key, API error, unparsable content) is caught and converted to the
mock fallback. -/
def generateSimulation (prompt : String) (subject : Subject) (level : Int)
    (capability : CapOutcome) : SimData :=
  match capability with
  | .parsed d => parseAIResponse d prompt subject level
  | _ => generateMockSimulation prompt subject level

/-- Document-side `virtualLab`: entries may be raw strings (the
repair defaults are plain strings) and `chemicals` may be absent. -/
structure VirtualLabDoc where
  equipment : List RawEquip
  chemicals : Option (List RawChem)
  procedure : List String
  safetyNotes : List String
  deriving DecidableEq, Repr

/-- simulationModels pre-save hook: auto-repair empty equipment / procedure /
safety-notes with deterministic defaults and materialize a chemicals array
(chemistry defaults when it was absent) before any save. -/
def preSaveRepair (subject : Subject) (v : VirtualLabDoc) : VirtualLabDoc :=
  let equipment :=
    if v.equipment.length = 0 then
      [RawEquip.str "Basic laboratory equipment", RawEquip.str "Safety goggles",
       RawEquip.str "Lab notebook"]
    else v.equipment
  let procedure :=
    if v.procedure.length = 0 then
      ["Set up equipment", "Follow procedure", "Record observations"]
    else v.procedure
  let safetyNotes :=
    if v.safetyNotes.length = 0 then
      ["Follow safety protocols", "Wear protective equipment"]
    else v.safetyNotes
  let chemicals :=
    match v.chemicals with
    | none =>
      some (if subject = .chemistry then
              [RawChem.str "Water", RawChem.str "Standard solutions"]
            else [])
    | some c => some c
  { equipment := equipment, chemicals := chemicals, procedure := procedure,
    safetyNotes := safetyNotes }

/-- A generator-output `virtualLab` as it is handed to the document store. -/
def VirtualLab.toDoc (v : VirtualLab) : VirtualLabDoc :=
  { equipment := v.equipment.map RawEquip.obj
    chemicals := some (v.chemicals.map RawChem.obj)
    procedure := v.procedure
    safetyNotes := v.safetyNotes }

/-- One row of the per-student generation history consulted by the
rate-limit count query. -/
structure SimRecord where
  studentId : Nat
  createdAt : Int
  deriving DecidableEq, Repr

/-- Response classes of the generate endpoint relevant to rate limiting. -/
inductive GenResponse
  | created
  | rateLimited
  | validationError
  deriving DecidableEq, Repr

/-- Count query `Simulation.countDocuments({studentId, createdAt: {$gte: oneHourAgo}})`
with `oneHourAgo = now - 3600000` ms. -/
def countRecentSimulations (store : List SimRecord) (studentId : Nat) (now : Int) : Nat :=
  (store.filter fun r => r.studentId == studentId && decide (now - 3600000 ≤ r.createdAt)).length

/-- part_008 generateSimulation endpoint, reduced to its store effect:
validation, then the 5-per-rolling-hour rate limit, then creation. -/
def generateSimulationStep (store : List SimRecord) (studentId : Nat)
    (prompt : String) (now : Int) : List SimRecord × GenResponse :=
  if prompt = "" then (store, .validationError)
  else if 500 < prompt.length then (store, .validationError)
  else if 5 ≤ countRecentSimulations store studentId now then (store, .rateLimited)
  else (store ++ [{ studentId := studentId, createdAt := now }], .created)

/-- The game-state fold of the mixChemicals handler: append the mixed
solution and add the score gain. -/
def applyMixingToGameState (gs : GameState) (scoreGain : Int) : GameState :=
  { gs with mixedSolutions := gs.mixedSolutions + 1, score := gs.score + scoreGain }

/-- The per-action scoring rule as the spec words it (§4.3): configured
correct-action weight, the same weight again when flagged correct, the
observation weight when an observation was produced, a floored-at-0 penalty
of 15 (dangerous) or 5 (caution), clamped to at most 25. -/
def scoreGainSpec (r : ActionResult) (criteria : ScoringCriteria) : Int :=
  let base := criteria.correctAction
    + (if r.isCorrect then criteria.correctAction else 0)
    + (if r.observation then criteria.observation else 0)
  let afterSafety :=
    if r.safety = "dangerous" then max 0 (base - 15)
    else if r.safety = "caution" then max 0 (base - 5)
    else base
  min afterSafety 25

/-- The mixing scoring rule as the spec words it (§4.3): correct-action
weight, +10 when safe / +5 when caution, the observation weight when
educational, clamped to at most 30. -/
def mixingScoreSpec (r : Reaction) (criteria : ScoringCriteria) : Int :=
  let base := criteria.correctAction
    + (if r.safety = "safe" then 10 else if r.safety = "caution" then 5 else 0)
    + (if r.educational then criteria.observation else 0)
  min base 30

end SimLab

namespace SimLab

/-- C3: `calculateScoreGain` computes exactly the spec formula (correct-action
weight, again if correct, plus observation weight, floored safety penalty,
clamped at 25); with default weights a correct observation-producing safe
action yields 25, a dangerous correct action with observation yields 10, and
no delta ever exceeds 25. -/
theorem calculateScoreGain_matches_spec :
    (∀ r gc, calculateScoreGain r gc = scoreGainSpec r (resolveCriteria gc)) ∧
    (∀ r gc, calculateScoreGain r gc ≤ 25) ∧
    calculateScoreGain ⟨true, true, "safe"⟩ none = 25 ∧
    calculateScoreGain ⟨true, true, "dangerous"⟩ none = 10 := by
  refine ⟨?_, ?_, by decide, by decide⟩
  · intro r gc
    cases hc : r.isCorrect <;> cases ho : r.observation <;>
      simp [calculateScoreGain, scoreGainSpec, hc, ho]
  · intro r gc
    unfold calculateScoreGain
    exact min_le_right _ _

/-- C4: `calculateMixingScore` computes exactly the spec formula
(correct-action weight, +10 safe / +5 caution, plus observation weight when
educational, clamped at 30); with default weights a safe educational mix
yields 25, and a mix rated neither safe nor caution and not educational
yields exactly the base correct-action weight (10 by default, via the
30-point clamp). -/
theorem calculateMixingScore_matches_spec :
    (∀ r gc, calculateMixingScore r gc = mixingScoreSpec r (resolveCriteria gc)) ∧
    calculateMixingScore ⟨"safe", true⟩ none = 25 ∧
    (∀ (s : String) (gc : Option GameConfig), s ≠ "safe" → s ≠ "caution" →
      calculateMixingScore ⟨s, false⟩ gc = min (resolveCriteria gc).correctAction 30) := by
  refine ⟨?_, by decide, ?_⟩
  · intro r gc
    cases he : r.educational <;> simp [calculateMixingScore, mixingScoreSpec, he] <;>
      split_ifs <;> ring_nf
  · intro s gc hs hc
    simp [calculateMixingScore, hs, hc]

/-- Witness for C4 at a concrete uncategorized, non-educational reaction with
the default configuration. -/
theorem calculateMixingScore_matches_spec_witness :
    calculateMixingScore ⟨"dangerous", false⟩ none = min (resolveCriteria none).correctAction 30 :=
  calculateMixingScore_matches_spec.2.2 "dangerous" none (by decide) (by decide)

/-- C10 counterexample: with a positive correct-action weight of 31 the
mixing score is clamped to 30, strictly below the configured weight, so
"returns at least the configured correct-action weight" fails. -/
theorem calculateMixingScore_cap_below_weight :
    calculateMixingScore ⟨"unknown", false⟩
        (some { objectives := [], scoringCriteria := ⟨31, 5, 50⟩,
                maxScore := 100, timeLimit := 40 })
      < 31 := by decide

/-- C10 (amended): for every reaction and configuration with a positive
correct-action weight and non-negative observation weight, the mixing delta
is at least `min correctAction 30` and strictly positive — a mix is never
penalized (no dangerous/caution deduction exists) and folding the delta into
the game state never decreases the score. -/
theorem calculateMixingScore_never_penalizes (r : Reaction) (gc : Option GameConfig)
    (hpos : 0 < (resolveCriteria gc).correctAction)
    (hobs : 0 ≤ (resolveCriteria gc).observation) :
    min (resolveCriteria gc).correctAction 30 ≤ calculateMixingScore r gc ∧
    0 < calculateMixingScore r gc ∧
    ∀ gs : GameState, gs.score ≤ (applyMixingToGameState gs (calculateMixingScore r gc)).score := by
  have hbound : (resolveCriteria gc).correctAction ≤
      (if r.safety = "safe" then (resolveCriteria gc).correctAction + 10
       else if r.safety = "caution" then (resolveCriteria gc).correctAction + 5
       else (resolveCriteria gc).correctAction) := by
    split_ifs <;> omega
  refine ⟨?_, ?_, ?_⟩
  · unfold calculateMixingScore
    cases he : r.educational <;> simp [he] <;> split_ifs at hbound ⊢ <;> omega
  · unfold calculateMixingScore
    cases he : r.educational <;> simp [he] <;> split_ifs at hbound ⊢ <;> omega
  · intro gs
    have h2 : 0 < calculateMixingScore r gc := by
      unfold calculateMixingScore
      cases he : r.educational <;> simp [he] <;> split_ifs at hbound ⊢ <;> omega
    simp [applyMixingToGameState]
    omega

/-- Witness for C10's amended theorem at a safe educational mix with the
default configuration. -/
theorem calculateMixingScore_never_penalizes_witness :
    min (resolveCriteria none).correctAction 30 ≤ calculateMixingScore ⟨"safe", true⟩ none ∧
    0 < calculateMixingScore ⟨"safe", true⟩ none ∧
    ∀ gs : GameState,
      gs.score ≤ (applyMixingToGameState gs (calculateMixingScore ⟨"safe", true⟩ none)).score :=
  calculateMixingScore_never_penalizes ⟨"safe", true⟩ none (by decide) (by decide)

/-- C8: the derived game configuration is deterministic in subject and level:
fixed scoring weights 10/5/50, `maxScore = 100 + level*20`, and a time limit
of 45 for chemistry, 30 for physics and 40 for biology or any other subject. -/
theorem generateGameConfig_deterministic :
    ∀ (subject : Subject) (level : Int),
      (generateGameConfig subject level).scoringCriteria
          = { correctAction := 10, observation := 5, completion := 50 } ∧
      (generateGameConfig subject level).maxScore = 100 + level * 20 ∧
      (generateGameConfig subject level).timeLimit
          = (match subject with
             | .chemistry => 45
             | .physics => 30
             | _ => 40) := by
  intro subject level
  cases subject <;> simp [generateGameConfig]

/-- Enhancement never yields an empty equipment list. -/
theorem enhanceEquipment_ne_nil (eo : Option (List RawEquip)) (subject : Subject) :
    enhanceEquipmentForGaming eo subject ≠ [] := by
  cases eo with
  | none => cases subject <;> decide
  | some l =>
    cases l with
    | nil => cases subject <;> simp [enhanceEquipmentForGaming] <;> decide
    | cons a as => simp [enhanceEquipmentForGaming]

/-- Enhancement never yields an empty chemicals list for chemistry. -/
theorem enhanceChemicals_chemistry_ne_nil (co : Option (List RawChem)) :
    enhanceChemicalsForGaming co .chemistry ≠ [] := by
  cases co with
  | none => decide
  | some l =>
    cases l with
    | nil => simp [enhanceChemicalsForGaming]; decide
    | cons a as => simp [enhanceChemicalsForGaming]

/-- The non-emptiness invariant of the spec on a generator-output lab. -/
def labInvariant (subject : Subject) (v : VirtualLab) : Prop :=
  v.equipment ≠ [] ∧ v.procedure ≠ [] ∧ v.safetyNotes ≠ [] ∧
    (subject = .chemistry → v.chemicals ≠ [])

/-- The non-emptiness invariant on a stored lab document. -/
def docInvariant (subject : Subject) (v : VirtualLabDoc) : Prop :=
  v.equipment ≠ [] ∧ v.procedure ≠ [] ∧ v.safetyNotes ≠ [] ∧
    (subject = .chemistry → ∃ l, v.chemicals = some l ∧ l ≠ [])

/-- Generator output on the parse path always satisfies the invariant. -/
theorem parseAIResponse_invariant (d : AIData) (prompt : String) (subject : Subject)
    (level : Int) : labInvariant subject (parseAIResponse d prompt subject level).virtualLab := by
  refine ⟨?_, ?_, ?_, fun hs => ?_⟩
  · simpa [parseAIResponse] using enhanceEquipment_ne_nil d.equipment subject
  · simp only [parseAIResponse]
    cases hp : d.procedure with
    | none => simp
    | some l => cases l <;> simp
  · simp only [parseAIResponse]
    cases hp : d.safetyNotes with
    | none => simp
    | some l => cases l <;> simp
  · subst hs
    simpa [parseAIResponse] using enhanceChemicals_chemistry_ne_nil d.chemicals

/-- Generator output on the mock path always satisfies the invariant. -/
theorem generateMockSimulation_invariant (prompt : String) (subject : Subject)
    (level : Int) : labInvariant subject (generateMockSimulation prompt subject level).virtualLab := by
  unfold labInvariant
  cases subject <;>
    simp [generateMockSimulation, mockChemistry, mockPhysics, mockBiology]

end SimLab

namespace SimLab

/-- C7: simulation generation is fail-open — for every prompt, subject, level
and failed capability outcome (no API key, request error, unparsable
content), the result is the subject-specific fallback template re-tagged
with the requested prompt, subject and level; generating chemistry at level 3
with the capability unavailable yields the "Acid-Base Titration Experiment"
template with non-empty chemicals and `gameConfig.maxScore = 160`. -/
theorem generateSimulation_failOpen :
    (∀ (prompt : String) (subject : Subject) (level : Int) (cap : CapOutcome),
      (∀ d, cap ≠ .parsed d) →
        generateSimulation prompt subject level cap
            = generateMockSimulation prompt subject level ∧
        (generateSimulation prompt subject level cap).prompt = prompt ∧
        (generateSimulation prompt subject level cap).subject = subject ∧
        (generateSimulation prompt subject level cap).level = level) ∧
    (generateSimulation "titrate an acid" .chemistry 3 .requestFailed).title
        = "Acid-Base Titration Experiment" ∧
    (generateSimulation "titrate an acid" .chemistry 3 .requestFailed).virtualLab.chemicals
        ≠ [] ∧
    (generateSimulation "titrate an acid" .chemistry 3 .requestFailed).gameConfig.maxScore
        = 160 := by
  refine ⟨?_, by decide, by decide, by decide⟩
  intro prompt subject level cap hfail
  cases cap with
  | parsed d => exact absurd rfl (hfail d)
  | noApiKey => exact ⟨rfl, by simp [generateSimulation, generateMockSimulation],
      by simp [generateSimulation, generateMockSimulation],
      by simp [generateSimulation, generateMockSimulation]⟩
  | requestFailed => exact ⟨rfl, by simp [generateSimulation, generateMockSimulation],
      by simp [generateSimulation, generateMockSimulation],
      by simp [generateSimulation, generateMockSimulation]⟩
  | parseFailed => exact ⟨rfl, by simp [generateSimulation, generateMockSimulation],
      by simp [generateSimulation, generateMockSimulation],
      by simp [generateSimulation, generateMockSimulation]⟩

/-- Witness for C7 at a concrete failed generation. -/
theorem generateSimulation_failOpen_witness :
    generateSimulation "make a circuit" .physics 2 .noApiKey
        = generateMockSimulation "make a circuit" .physics 2 ∧
    (generateSimulation "make a circuit" .physics 2 .noApiKey).prompt = "make a circuit" ∧
    (generateSimulation "make a circuit" .physics 2 .noApiKey).subject = .physics ∧
    (generateSimulation "make a circuit" .physics 2 .noApiKey).level = 2 :=
  generateSimulation_failOpen.1 "make a circuit" .physics 2 .noApiKey
    (fun d h => by cases h)

/-- C6: for every subject, level and capability outcome the Content
Generator's output has non-empty equipment, procedure and safety notes, with
non-empty chemicals for chemistry; the pre-save hook auto-repairs empty
equipment/procedure/safety-notes with deterministic defaults on every
document before any save; and the document persisted on the creation path
(generator output run through the pre-save hook) satisfies the same
invariant. -/
theorem contentGenerator_nonEmpty_invariant :
    (∀ (prompt : String) (subject : Subject) (level : Int) (cap : CapOutcome),
      labInvariant subject (generateSimulation prompt subject level cap).virtualLab) ∧
    (∀ (subject : Subject) (v : VirtualLabDoc),
      (preSaveRepair subject v).equipment ≠ [] ∧
      (preSaveRepair subject v).procedure ≠ [] ∧
      (preSaveRepair subject v).safetyNotes ≠ []) ∧
    (∀ (prompt : String) (subject : Subject) (level : Int) (cap : CapOutcome),
      docInvariant subject
        (preSaveRepair subject (generateSimulation prompt subject level cap).virtualLab.toDoc)) := by
  have hgen : ∀ (prompt : String) (subject : Subject) (level : Int) (cap : CapOutcome),
      labInvariant subject (generateSimulation prompt subject level cap).virtualLab := by
    intro prompt subject level cap
    cases cap with
    | parsed d => exact parseAIResponse_invariant d prompt subject level
    | noApiKey => exact generateMockSimulation_invariant prompt subject level
    | requestFailed => exact generateMockSimulation_invariant prompt subject level
    | parseFailed => exact generateMockSimulation_invariant prompt subject level
  refine ⟨hgen, ?_, ?_⟩
  · intro subject v
    refine ⟨?_, ?_, ?_⟩ <;> simp only [preSaveRepair] <;> split_ifs with h <;>
      first
        | decide
        | exact fun hc => h (by simp [hc])
  · intro prompt subject level cap
    obtain ⟨he, hp, hs, hc⟩ := hgen prompt subject level cap
    set v := (generateSimulation prompt subject level cap).virtualLab with hv
    have hel : v.equipment.length ≠ 0 := by simpa using he
    have hpl : v.procedure.length ≠ 0 := by simpa using hp
    have hsl : v.safetyNotes.length ≠ 0 := by simpa using hs
    refine ⟨?_, ?_, ?_, fun hchem => ?_⟩
    · simp [preSaveRepair, VirtualLab.toDoc, hel]
      intro habs
      exact hel (by simpa using congrArg List.length habs)
    · simp [preSaveRepair, VirtualLab.toDoc, hpl, hp]
    · simp [preSaveRepair, VirtualLab.toDoc, hsl, hs]
    · refine ⟨v.chemicals.map RawChem.obj, ?_, ?_⟩
      · simp [preSaveRepair, VirtualLab.toDoc]
      · simpa using hc hchem

/-- The lifecycle transition table exactly as §4.2 of the spec words it. -/
def specTransitionTable : Status → Status → Bool
  | .not_started, .in_progress => true
  | .in_progress, .paused => true
  | .in_progress, .completed => true
  | .paused, .in_progress => true
  | .paused, .completed => true
  | _, _ => false

/-- Which lifecycle requests the claimed table lets succeed from a given
status: only `start` from not_started, only `pause`/`complete` from
in_progress, only `resume`/`complete` from paused, nothing from completed; a
patch that does not change the status is not a transition, and a
status-changing patch must be a table transition. -/
def specOpAllowed (cur : Status) (op : LifecycleOp) : Bool :=
  match op with
  | .start => cur = .not_started
  | .pause => cur = .in_progress
  | .resume => cur = .paused
  | .complete _ => cur = .in_progress || cur = .paused
  | .patch p =>
    match p.status with
    | none => true
    | some s => s = cur || specTransitionTable cur s

/-- The coded transition check agrees with the spec's table. -/
theorem isValidStateTransition_eq_table :
    ∀ c n, isValidStateTransition c n = specTransitionTable c n := by
  intro c n
  cases c <;> cases n <;> rfl

end SimLab

namespace SimLab

/-- C1: every lifecycle request succeeds exactly when the spec's transition
table allows it from the current status (given that a generic patch is not
rate-limited), and any request outside the table leaves the simulation
record unchanged and reports an invalid-transition failure. -/
theorem lifecycle_transition_table (sim : Simulation) (op : LifecycleOp) (now : Int)
    (hrl : ∀ p, op = .patch p → updateRateLimited sim now = false) :
    ((runLifecycleOp op sim now).2 = none ↔ specOpAllowed sim.state.status op = true) ∧
    (specOpAllowed sim.state.status op = false →
      runLifecycleOp op sim now = (sim, some .invalidTransition)) := by
  cases op with
  | start =>
    cases h : sim.state.status <;>
      simp [runLifecycleOp, startSimulation, specOpAllowed, h]
  | pause =>
    cases h : sim.state.status <;>
      simp [runLifecycleOp, pauseSimulation, specOpAllowed, h]
  | resume =>
    cases h : sim.state.status <;>
      simp [runLifecycleOp, resumeSimulation, specOpAllowed, h]
  | complete fr =>
    cases h : sim.state.status <;>
      simp [runLifecycleOp, completeSimulation, specOpAllowed, h, Except.map]
  | patch p =>
    have hr : updateRateLimited sim now = false := hrl p rfl
    cases hs : p.status with
    | none =>
      simp [runLifecycleOp, updateSimulationState, hr, hs, specOpAllowed]
    | some s =>
      by_cases hc : s = sim.state.status
      · simp [runLifecycleOp, updateSimulationState, hr, hs, specOpAllowed, hc]
      · by_cases hv : isValidStateTransition sim.state.status s
        · simp [runLifecycleOp, updateSimulationState, hr, hs, specOpAllowed, hc, hv,
            ← isValidStateTransition_eq_table]
        · simp [runLifecycleOp, updateSimulationState, hr, hs, specOpAllowed, hc, hv,
            ← isValidStateTransition_eq_table]

/-- A concrete completed simulation used to witness the lifecycle and
completion theorems. -/
def completedSim : Simulation :=
  { subject := .biology
    level := 2
    gameConfig := none
    state :=
      { status := .completed
        currentStep := 3
        progress := 100
        results := emptyResults
        gameState := some ⟨40, 2, 1, 0⟩
        startedAt := some 0
        lastActiveAt := some 100
        completedAt := some 2000 } }

/-- Witness for C1: starting an already-completed simulation is rejected with
invalid-transition and leaves the record unchanged. -/
theorem lifecycle_transition_table_witness :
    ((runLifecycleOp .start completedSim 9000).2 = none ↔
      specOpAllowed completedSim.state.status .start = true) ∧
    (specOpAllowed completedSim.state.status .start = false →
      runLifecycleOp .start completedSim 9000 = (completedSim, some .invalidTransition)) :=
  lifecycle_transition_table completedSim .start 9000 (fun p h => by cases h)

end SimLab

namespace SimLab

/-- C9: both rate limits reject without mutation — a well-formed generation
request from a student with 5 or more simulations created within the rolling
hour returns a rate-limit failure and leaves the store unchanged, and a
generic state update arriving less than 1000 ms after the simulation's
lastActiveAt returns a rate-limit failure and leaves the record unchanged. -/
theorem rateLimits_reject_without_mutation :
    (∀ (store : List SimRecord) (studentId : Nat) (prompt : String) (now : Int),
      prompt ≠ "" → prompt.length ≤ 500 →
      5 ≤ countRecentSimulations store studentId now →
      generateSimulationStep store studentId prompt now = (store, .rateLimited)) ∧
    (∀ (sim : Simulation) (patch : StatePatch) (now t : Int),
      sim.state.lastActiveAt = some t → now - t < 1000 →
      runLifecycleOp (.patch patch) sim now = (sim, some .rateLimited)) := by
  constructor
  · intro store studentId prompt now hne hlen hcount
    simp [generateSimulationStep, hne, hcount]
    omega
  · intro sim patch now t hlast hlt
    simp [runLifecycleOp, updateSimulationState, updateRateLimited, hlast, hlt]

/-- Witness for C9 at a concrete saturated store and a concrete too-fresh
simulation. -/
theorem rateLimits_reject_without_mutation_witness :
    (generateSimulationStep
        [⟨7, 1000⟩, ⟨7, 1001⟩, ⟨7, 1002⟩, ⟨7, 1003⟩, ⟨7, 1004⟩] 7 "grow crystals" 2000
      = ([⟨7, 1000⟩, ⟨7, 1001⟩, ⟨7, 1002⟩, ⟨7, 1003⟩, ⟨7, 1004⟩], .rateLimited)) ∧
    runLifecycleOp (.patch ⟨none, some 2, none⟩) completedSim 600 = (completedSim, some .rateLimited) :=
  ⟨rateLimits_reject_without_mutation.1 _ 7 "grow crystals" 2000 (by decide) (by decide)
      (by decide),
    rateLimits_reject_without_mutation.2 completedSim ⟨none, some 2, none⟩ 600 100
      (by decide) (by decide)⟩

/-- Reading a written entry of a tracked subject. -/
theorem SubjectScores.get_set {m : SubjectScores} {s : Subject} {cur : Int} (v : Int)
    (h : m.get s = some cur) : (m.set s v).get s = some v := by
  cases s <;> simp [SubjectScores.get, SubjectScores.set] at h ⊢

/-- A subject tracked in one map is tracked in every map. -/
theorem SubjectScores.get_isSome_of {m : SubjectScores} {s : Subject} {cur : Int}
    (m' : SubjectScores) (h : m.get s = some cur) : ∃ v, m'.get s = some v := by
  cases s <;> simp [SubjectScores.get] at h ⊢

/-- The reduce-based favourite pick always attains the maximal skill value. -/
theorem favoriteReduce_get_max (m : SubjectScores) :
    m.get (favoriteReduce m) = some (max m.chemistry (max m.physics m.biology)) := by
  unfold favoriteReduce
  by_cases h1 : m.physics < m.chemistry
  · simp only [if_pos h1]
    by_cases h2 : m.biology < m.chemistry
    · simp only [if_pos h2, SubjectScores.get, Option.some.injEq]
      omega
    · simp only [if_neg h2, SubjectScores.get, Option.some.injEq]
      omega
  · simp only [if_neg h1]
    by_cases h2 : m.biology < m.physics
    · simp only [if_pos h2, SubjectScores.get, Option.some.injEq]
      omega
    · simp only [if_neg h2, SubjectScores.get, Option.some.injEq]
      omega

end SimLab

namespace SimLab

/-- C5: every stats update increments games-played (and completed-count when
the completion flag is set), recomputes the rounded running average, bumps
the subject's skill progression by `min 5 ⌊finalScore/20⌋` clamped at 100,
raises the subject's best score exactly when exceeded, picks a favourite
subject attaining the maximal skill progression, and updates the success
streak at the 70-point threshold; two completions in one subject scoring 40
then 90 end with best score 90 and streak 0 then 1. -/
theorem updateStats_spec :
    (∀ (stats : GameStats) (subject : Subject) (score : Int) (c : Bool),
      (updateStats stats subject score c).totalGamesPlayed = stats.totalGamesPlayed + 1 ∧
      (updateStats stats subject score c).totalScore = stats.totalScore + score ∧
      (updateStats stats subject score c).averageScore
          = jsRoundDiv (stats.totalScore + score) (stats.totalGamesPlayed + 1) ∧
      (updateStats stats subject score c).experimentsCompleted
          = stats.experimentsCompleted + (if c then 1 else 0)) ∧
    (∀ (stats : GameStats) (subject : Subject) (score : Int) (c : Bool) (cur : Int),
      stats.skillProgression.get subject = some cur →
      (updateStats stats subject score c).skillProgression.get subject
          = some (min 100 (cur + min 5 (Int.fdiv score 20))) ∧
      ((stats.bestScores.get subject).getD 0 < score →
        (updateStats stats subject score c).bestScores.get subject = some score) ∧
      (score ≤ (stats.bestScores.get subject).getD 0 →
        (updateStats stats subject score c).bestScores = stats.bestScores) ∧
      (updateStats stats subject score c).skillProgression.get
          (updateStats stats subject score c).favoriteSubject
        = some (max (updateStats stats subject score c).skillProgression.chemistry
            (max (updateStats stats subject score c).skillProgression.physics
              (updateStats stats subject score c).skillProgression.biology))) ∧
    (∀ (stats : GameStats) (subject : Subject) (score : Int) (c : Bool),
      70 ≤ score →
      (updateStats stats subject score c).streakCurrent = stats.streakCurrent + 1 ∧
      (updateStats stats subject score c).streakLongest
          = max stats.streakLongest (stats.streakCurrent + 1)) ∧
    (∀ (stats : GameStats) (subject : Subject) (score : Int) (c : Bool),
      score < 70 →
      (updateStats stats subject score c).streakCurrent = 0 ∧
      (updateStats stats subject score c).streakLongest = stats.streakLongest) ∧
    ((updateStats newGameStats .chemistry 40 true).streakCurrent = 0 ∧
     (updateStats (updateStats newGameStats .chemistry 40 true) .chemistry 90 true).bestScores.chemistry
        = 90 ∧
     (updateStats (updateStats newGameStats .chemistry 40 true) .chemistry 90 true).streakCurrent
        = 1) := by
  refine ⟨?_, ?_, ?_, ?_, ?_⟩
  · intro stats subject score c
    cases hsub : stats.skillProgression.get subject <;>
      by_cases hsc : (70:Int) ≤ score <;> cases c <;>
        simp [updateStats, hsub, hsc]
  · intro stats subject score c cur hsub
    obtain ⟨old, hold⟩ := SubjectScores.get_isSome_of stats.bestScores hsub
    refine ⟨?_, ?_, ?_, ?_⟩ <;>
      by_cases hsc : (70:Int) ≤ score <;>
        simp only [updateStats, hsub, hsc, if_true, if_false, ite_true, ite_false]
    · exact SubjectScores.get_set _ hsub
    · exact SubjectScores.get_set _ hsub
    · intro hbest
      rw [if_pos hbest]
      exact SubjectScores.get_set _ hold
    · intro hbest
      rw [if_pos hbest]
      exact SubjectScores.get_set _ hold
    · intro hbest
      rw [if_neg (by omega)]
    · intro hbest
      rw [if_neg (by omega)]
    · exact favoriteReduce_get_max _
    · exact favoriteReduce_get_max _
  · intro stats subject score c hsc
    cases hsub : stats.skillProgression.get subject <;>
      simp [updateStats, hsub, hsc] <;> split_ifs <;> omega
  · intro stats subject score c hsc
    cases hsub : stats.skillProgression.get subject <;>
      simp [updateStats, hsub, hsc, not_le.mpr hsc]
  · have h1 : updateStats newGameStats .chemistry 40 true
        = { totalGamesPlayed := 1, totalScore := 40, averageScore := 40,
            experimentsCompleted := 1, favoriteSubject := .chemistry,
            skillProgression := ⟨2, 0, 0⟩, bestScores := ⟨40, 0, 0⟩,
            streakCurrent := 0, streakLongest := 0 } := by
      norm_num [updateStats, newGameStats, jsRoundDiv, favoriteReduce,
        SubjectScores.get, SubjectScores.set, Int.fdiv]
    have h2 : updateStats (updateStats newGameStats .chemistry 40 true) .chemistry 90 true
        = { totalGamesPlayed := 2, totalScore := 130, averageScore := 65,
            experimentsCompleted := 2, favoriteSubject := .chemistry,
            skillProgression := ⟨6, 0, 0⟩, bestScores := ⟨90, 0, 0⟩,
            streakCurrent := 1, streakLongest := 1 } := by
      rw [h1]
      norm_num [updateStats, jsRoundDiv, favoriteReduce,
        SubjectScores.get, SubjectScores.set, Int.fdiv]
    exact ⟨by rw [h1], by rw [h2], by rw [h2]⟩

/-- Witness for C5 at a fresh stats row, a physics completion and score 85.-/
theorem updateStats_spec_witness :
    (updateStats newGameStats .physics 85 true).skillProgression.get .physics
        = some (min 100 ((0:Int) + min 5 (Int.fdiv 85 20))) ∧
    (updateStats newGameStats .physics 85 true).streakCurrent
        = newGameStats.streakCurrent + 1 :=
  ⟨(updateStats_spec.2.1 newGameStats .physics 85 true 0 (by decide)).1,
   (updateStats_spec.2.2.1 newGameStats .physics 85 true (by decide)).1⟩

/-- The simulation of end-to-end scenario C: in_progress, game score 80,
`gameConfig.maxScore = 100`, empty results bag. -/
def scenarioCSim : Simulation :=
  { subject := .chemistry
    level := 3
    gameConfig := some { objectives := [], scoringCriteria := defaultScoringCriteria,
                         maxScore := 100, timeLimit := 45 }
    state :=
      { status := .in_progress
        currentStep := 0
        progress := 50
        results := emptyResults
        gameState := some ⟨80, 0, 0, 0⟩
        startedAt := some 0
        lastActiveAt := some 0
        completedAt := none } }

/-- A supplied-but-empty `finalResults` body (`{}` — truthy in JS). -/
def emptyFinalResults : FinalResults := ⟨none, none, none, none⟩

end SimLab

namespace SimLab

/-- C2 counterexample: completing the scenario-C simulation (gameState.score
80, maxScore 100) with no finalResults supplied skips the backfill entirely
(`if (finalResults)`), so the final game score reads 0, performance is
"needs_improvement" (not "good") and no badge — in particular not the
skilled-researcher badge — is awarded. -/
theorem completeSimulation_noFinalResults_counterexample :
    (completeSimulation scenarioCSim none 5000).map (fun r => r.2.performance)
        = .ok "needs_improvement" ∧
    (completeSimulation scenarioCSim none 5000).map (fun r => r.2.achievements)
        = .ok [] := by
  constructor
  · norm_num [completeSimulation, scenarioCSim, calculatePerformance, jsOrI,
      emptyResults, generateGameAchievements, jsGe, jsGt, Except.map]
  · norm_num [completeSimulation, scenarioCSim, calculatePerformance, jsOrI,
      emptyResults, generateGameAchievements, jsGe, jsGt, Except.map]
    decide

/-- C2 (amended): complete is permitted from in_progress or paused and sets
status=completed, progress=100 and the completedAt/lastActiveAt stamps; the
results merge and backfill run only when a finalResults body is supplied —
gameScore, observationsMade and hintsUsed are then backfilled from the game
sub-state when omitted, while actionsCompleted defaults to 0; with no
finalResults the results bag is left unchanged. Completing the scenario-C
simulation with an empty finalResults body yields performance "good" and
awards the skilled-researcher badge but not the perfect-scientist badge. -/
theorem completeSimulation_amended :
    (∀ (sim : Simulation) (fr : Option FinalResults) (now : Int),
      sim.state.status = .in_progress ∨ sim.state.status = .paused →
      ∃ sim' out, completeSimulation sim fr now = .ok (sim', out) ∧
        sim'.state.status = .completed ∧ sim'.state.progress = 100 ∧
        sim'.state.completedAt = some now ∧ sim'.state.lastActiveAt = some now ∧
        (fr = none → sim'.state.results = sim.state.results)) ∧
    (∀ (f : FinalResults) (gs : Option GameState),
      (f.gameScore = none →
        (mergeFinalResults f gs).gameScore = some (jsOrI (gs.map GameState.score) 0)) ∧
      (f.observationsMade = none →
        (mergeFinalResults f gs).observationsMade
          = some (jsOrI (gs.map fun g => (g.observations : Int)) 0)) ∧
      (f.hintsUsed = none →
        (mergeFinalResults f gs).hintsUsed
          = some (jsOrI (gs.map fun g => (g.hints : Int)) 0)) ∧
      (f.actionsCompleted = none → (mergeFinalResults f gs).actionsCompleted = some 0)) ∧
    ((completeSimulation scenarioCSim (some emptyFinalResults) 5000).map
        (fun r => r.2.performance) = .ok "good") ∧
    ((completeSimulation scenarioCSim (some emptyFinalResults) 5000).map
        (fun r => r.2.achievements) = .ok ["skilled_researcher", "lab_apprentice"]) := by
  refine ⟨?_, ?_, ?_, ?_⟩
  · intro sim fr now hperm
    unfold completeSimulation
    rw [if_pos hperm]
    exact ⟨_, _, rfl, rfl, rfl, rfl, rfl, fun hf => by subst hf; rfl⟩
  · intro f gs
    refine ⟨fun h => ?_, fun h => ?_, fun h => ?_, fun h => ?_⟩ <;>
      simp [mergeFinalResults, h, jsOrI]
  · norm_num [completeSimulation, scenarioCSim, emptyFinalResults, calculatePerformance,
      jsOrI, emptyResults, mergeFinalResults, Except.map]
  · norm_num [completeSimulation, scenarioCSim, emptyFinalResults, calculatePerformance,
      jsOrI, emptyResults, mergeFinalResults, generateGameAchievements, jsGe, jsGt,
      Except.map]
    decide

/-- Witness for C2's amended theorem: the general completion clause at the
scenario-C simulation, and the backfill clause at an empty finalResults body. -/
theorem completeSimulation_amended_witness :
    (∃ sim' out, completeSimulation scenarioCSim none 5000 = .ok (sim', out) ∧
      sim'.state.status = .completed ∧ sim'.state.progress = 100 ∧
      sim'.state.completedAt = some 5000 ∧ sim'.state.lastActiveAt = some 5000 ∧
      ((none : Option FinalResults) = none → sim'.state.results = scenarioCSim.state.results)) ∧
    (mergeFinalResults emptyFinalResults (some ⟨80, 0, 0, 0⟩)).gameScore
        = some (jsOrI ((some (⟨80, 0, 0, 0⟩ : GameState)).map GameState.score) 0) :=
  ⟨completeSimulation_amended.1 scenarioCSim none 5000 (Or.inl rfl),
   (completeSimulation_amended.2.1 emptyFinalResults (some ⟨80, 0, 0, 0⟩)).1 rfl⟩

/-- Witness for C6: the persisted creation-path chemistry document at level 1
with an unparsable capability response keeps non-empty chemicals. -/
theorem contentGenerator_nonEmpty_invariant_witness :
    (generateSimulation "dissolve salt" .chemistry 1 .parseFailed).virtualLab.chemicals ≠ [] :=
  (contentGenerator_nonEmpty_invariant.1 "dissolve salt" .chemistry 1 .parseFailed).2.2.2 rfl

end SimLab
